import Mathlib

/-!
Shallow embedding of the BM77 blood-pressure device controller
(react-native TypeScript sources: the BM77 class with startScan, connect,
discoverWithDelay, receiveData, convertBloodPressure, pulseRateConvert,
HSDConvert, hex2bin, base64ToHex).

JavaScript numbers that can be NaN are modelled as `Option Nat`
(`none` = NaN); JavaScript values that can be `undefined` are modelled as
`Option`.  Out-of-bounds array/string indexing yields `none` (JS
`undefined`), and the JS coercions that the decoder can hit
(`undefined + "ab"` = "undefinedab", `undefined + undefined` = NaN,
`parseInt(undefined, 16)` = NaN, `NaN.toString(2)` = "NaN") are modelled
explicitly at every call site where they can occur.
-/

namespace BM77Model

/-- Value of one hexadecimal digit character, case-insensitive
(the digit semantics of JS `parseInt` with radix 16). -/
def hexDigitVal (c : Char) : Option Nat :=
  if ('0' ≤ c ∧ c ≤ '9') then some (c.toNat - 48)
  else if ('a' ≤ c ∧ c ≤ 'f') then some (c.toNat - 87)
  else if ('A' ≤ c ∧ c ≤ 'F') then some (c.toNat - 55)
  else none

/-- Accumulate the longest run of leading hex digits, as JS `parseInt`
does after its first digit. -/
def goHex (acc : Nat) : List Char → Nat
  | [] => acc
  | c :: cs =>
    match hexDigitVal c with
    | some d => goHex (16 * acc + d) cs
    | none => acc

/-- JS `parseInt(s, 16)`: parse the longest prefix of hex digits; if the
string starts with a non-digit the result is NaN (`none`).  (Leading
whitespace, signs and a `0x` prefix never occur on the strings this
decoder feeds to `parseInt`, so they are not modelled.) -/
def parseIntHex (s : String) : Option Nat :=
  match s.data with
  | [] => none
  | c :: cs =>
    match hexDigitVal c with
    | some d => some (goHex d cs)
    | none => none

/-- `parseInt(x, 16)` on a value that may be `undefined` or NaN:
`parseInt(undefined, 16)` coerces to `parseInt("undefined", 16)` = NaN,
and `parseInt(NaN, 16)` = NaN, so `none` maps to `none`. -/
def jsParseInt16 (x : Option String) : Option Nat :=
  match x with
  | some s => parseIntHex s
  | none => none

/-- JS `+` on two possibly-undefined strings: string concatenation,
with `undefined` coerced to the text "undefined" when the other operand
is a string, and `undefined + undefined` = NaN (`none`). -/
def jsStrAdd (x y : Option String) : Option String :=
  match x, y with
  | some a, some b => some (a ++ b)
  | some a, none => some (a ++ "undefined")
  | none, some b => some ("undefined" ++ b)
  | none, none => none

/-- Binary digit characters of a natural number, most significant first,
as produced by JS `Number.prototype.toString(2)`.  Structural recursion
on a fuel argument so that the kernel can evaluate it. -/
def natToBinAux : Nat → Nat → List Char
  | 0, _ => []
  | fuel + 1, n =>
    if n < 2 then [if n = 1 then '1' else '0']
    else natToBinAux fuel (n / 2) ++ [if n % 2 = 1 then '1' else '0']

/-- JS `n.toString(2)` for a natural number. -/
def natToBinChars (n : Nat) : List Char := natToBinAux (n + 1) n

/-- JS `x.toString(2)` where `x` may be NaN: `NaN.toString(2)` is the
three-character string "NaN". -/
def toString2 (x : Option Nat) : String :=
  match x with
  | some n => ⟨natToBinChars n⟩
  | none => "NaN"

/-- JS `s.substr(-8)`: the last 8 characters (the whole string when it
is shorter than 8). -/
def takeLast8 (s : String) : String := ⟨s.data.drop (s.data.length - 8)⟩

/-- `hex2bin` of the source, at its call site: the argument is
`hexArray[17]` and may be `undefined`.  Source:
`('00000000' + parseInt(hexOneByte, 16).toString(2)).substr(-8)`. -/
def hex2bin (hexOneByte : Option String) : String :=
  takeLast8 ⟨("00000000").data ++ (toString2 (jsParseInt16 hexOneByte)).data⟩

/-- JS string indexing `s[i]`, yielding a character or `undefined`. -/
def charAt (s : String) (i : Nat) : Option Char := s.data.get? i

/-- JS `s[i] + s[j]` on possibly-undefined one-character strings:
two in-bounds characters concatenate to a two-character string; an
`undefined` operand coerces to the text "undefined"; two `undefined`
operands add to NaN, which matches no string case of a `switch`, so it
is represented by the string "NaN" (which also matches no case). -/
def jsCharPair (x y : Option Char) : String :=
  match x, y with
  | some a, some b => ⟨[a, b]⟩
  | some a, none => String.mk [a] ++ "undefined"
  | none, some b => "undefined" ++ String.mk [b]
  | none, none => "NaN"

/-- The Measurement record decoded from one notification frame
(interface Measurement of the source).  Numeric fields are JS numbers
that may be NaN, hence `Option Nat`. -/
structure Measurement where
  header : Option Nat
  systolic : Option Nat
  diastolic : Option Nat
  meanArterialPressure : Option Nat
  year : Option Nat
  month : Option Nat
  day : Option Nat
  hours : Option Nat
  minutes : Option Nat
  seconds : Option Nat
  pulseRate : Option Nat
  userID : Option Nat
  bodyMovement : String
  cuffFit : String
  irregularPulse : String
  pulseRateRange : String
  measurementPosition : String
  HSD : String
deriving DecidableEq, Repr

/-- `pulseRateConvert` of the source: a switch on the two-character
code, written as the chain of equality tests that a JS switch performs. -/
def pulseRateConvert (binary : String) : String :=
  if binary = "00" then "In range"
  else if binary = "01" then "Exceeds upper limit"
  else if binary = "10" then "Below lower limit"
  else "Undefined"

/-- `HSDConvert` of the source. -/
def HSDConvert (binary : String) : String :=
  if binary = "00" then "HSD not detected"
  else if binary = "01" then "HSD detected"
  else if binary = "10" then "Unable to judge"
  else "Undefined"

/-- `convertBloodPressure` of the source: hexArray is the array of
two-character hex strings, one per byte of the notification frame. -/
def convertBloodPressure (hexArray : List String) : Measurement :=
  let statusFlagsOne := hex2bin (hexArray.get? 17)
  { header := jsParseInt16 (hexArray.get? 0)
    systolic := jsParseInt16 (jsStrAdd (hexArray.get? 2) (hexArray.get? 1))
    diastolic := jsParseInt16 (jsStrAdd (hexArray.get? 4) (hexArray.get? 3))
    meanArterialPressure := jsParseInt16 (hexArray.get? 5)
    year := jsParseInt16 (jsStrAdd (hexArray.get? 8) (hexArray.get? 7))
    month := jsParseInt16 (hexArray.get? 9)
    day := jsParseInt16 (hexArray.get? 10)
    hours := jsParseInt16 (hexArray.get? 11)
    minutes := jsParseInt16 (hexArray.get? 12)
    seconds := jsParseInt16 (hexArray.get? 13)
    pulseRate := jsParseInt16 (jsStrAdd (hexArray.get? 15) (hexArray.get? 14))
    userID := jsParseInt16 (hexArray.get? 16)
    bodyMovement :=
      if charAt statusFlagsOne 0 = some '0' then "No body movement"
      else "Body movement"
    cuffFit :=
      if charAt statusFlagsOne 1 = some '0' then "Cuff fits properly"
      else "Cuff is too loose"
    irregularPulse :=
      if charAt statusFlagsOne 2 = some '0' then "No irregular pulse"
      else "Irregular pulse"
    pulseRateRange :=
      pulseRateConvert (jsCharPair (charAt statusFlagsOne 3) (charAt statusFlagsOne 4))
    measurementPosition :=
      if charAt statusFlagsOne 5 = some '0' then "Proper position"
      else "Improper position"
    HSD := HSDConvert (jsCharPair (charAt statusFlagsOne 6) (charAt statusFlagsOne 7)) }

/-- Lower-case hex digit character for a value below 16 (as produced by
Buffer.toString with encoding hex). -/
def hexChar (d : Nat) : Char := ("0123456789abcdef").data.getD d '0'

/-- The two-character lower-case hex string of one byte, as it appears
in the output of `base64ToHex` of the source (Buffer hex encoding split
into two-character chunks). -/
def byteToHex (b : Nat) : String := ⟨[hexChar (b / 16), hexChar (b % 16)]⟩

/-- `base64ToHex` of the source, composed with base64 encoding of the
raw payload bytes: the transport hands the frame base64-encoded, the
source decodes it to a Buffer and splits its hex dump into one string
per byte, so the composite takes the raw bytes to their hex strings. -/
def base64ToHex (frame : List Nat) : List String := frame.map byteToHex

/-- Decoding pipeline applied to one notification payload of raw bytes:
`convertBloodPressure(base64ToHex(value))` of the source. -/
def decodeFrame (frame : List Nat) : Measurement :=
  convertBloodPressure (base64ToHex frame)

/-- Character for one bit. -/
def bitChar (t : Bool) : Char := if t then '1' else '0'

/-- Constant field deviceName of the BM77 class. -/
def deviceName : String := "BM77"

/-- Constant field service of the BM77 class (Blood Pressure service). -/
def service : String := "00001810-0000-1000-8000-00805f9b34fb"

/-- Constant field characteristicNotify of the BM77 class. -/
def characteristicNotify : String := "00002a35-0000-1000-8000-00805f9b34fb"

/-- Abstract error delivered by the react-native-ble-plx stack. -/
structure BleError where
  code : Nat
deriving DecidableEq, Repr

/-- `ConnectionStatus` enum of the source. -/
inductive ConnectionStatus where
  | CONNECTED
  | DISCONNECTED
deriving DecidableEq, Repr

/-- The three observable states of a JS Promise.  A settled promise
never changes again: `resolve` and `reject` are no-ops on a settled
promise. -/
inductive PromiseState (α : Type) where
  | pending
  | resolved (a : α)
  | rejected (e : BleError)
deriving DecidableEq, Repr

/-- JS `resolve(a)`: settles the promise only when it is pending. -/
def settleResolve {α : Type} (p : PromiseState α) (a : α) : PromiseState α :=
  match p with
  | .pending => .resolved a
  | _ => p

/-- JS `reject(e)`: settles the promise only when it is pending. -/
def settleReject {α : Type} (p : PromiseState α) (e : BleError) : PromiseState α :=
  match p with
  | .pending => .rejected e
  | _ => p

/-- One invocation of the scan listener: either a stack-reported scan
error, or an advertisement from a device (identified by an abstract
handle) carrying an optional advertised name. -/
inductive ScanEvent where
  | stackErr (e : BleError)
  | adv (deviceId : Nat) (name : Option String)
deriving DecidableEq, Repr

/-- State of one `startScan` call: the promise it returned (resolved
with the matching device handle) and whether the stack scan is still
active (`stopDeviceScan` not yet called). -/
structure ScanState where
  promise : PromiseState Nat
  active : Bool
deriving DecidableEq, Repr

/-- The `(error, device)` pair the stack passes to the listener for one
scan event: on an error the device argument is absent, on an
advertisement the error argument is absent. -/
def scanEventArgs : ScanEvent → Option BleError × Option (Nat × Option String)
  | .stackErr e => (some e, none)
  | .adv id name => (none, some (id, name))

/-- The listener body registered by `startScan`:
`if (error) { stopDeviceScan(); reject(error); }`
`if (device?.name === this.deviceName) { stopDeviceScan(); resolve(device); }`
Both ifs run; `device?.name` is `undefined` when the device or its name
is absent and then never equals the name under `===`. -/
def scanListener (s : ScanState)
    (error : Option BleError) (device : Option (Nat × Option String)) : ScanState :=
  let s1 :=
    match error with
    | some e => { s with active := false, promise := settleReject s.promise e }
    | none => s
  match device with
  | some (id, name) =>
    if name = some deviceName then
      { s1 with active := false, promise := settleResolve s1.promise id }
    else s1
  | none => s1

/-- One scan event as the running `startScan` sees it: the stack
invokes the listener only while the scan is active (`stopDeviceScan`
makes the stack stop delivering events). -/
def scanStep (s : ScanState) (ev : ScanEvent) : ScanState :=
  if s.active then scanListener s (scanEventArgs ev).1 (scanEventArgs ev).2 else s

/-- `startScan` run against a stream of scan events. -/
def startScanRun (events : List ScanEvent) : ScanState :=
  events.foldl scanStep { promise := .pending, active := true }

/-- Whether a scan event is an advertisement whose advertised name is
exactly the target device name. -/
def isMatchingAdv (ev : ScanEvent) : Bool :=
  match ev with
  | .adv _ name => name = some deviceName
  | _ => false

/-- Whether a scan event is a stack-reported scan error. -/
def isScanErr (ev : ScanEvent) : Bool :=
  match ev with
  | .stackErr _ => true
  | _ => false

/-- The literal delay of the `setTimeout` in `discoverWithDelay`. -/
def settlingDelay : Nat := 1600

/-- Behaviour of the stack and device for one `connect` call:
whether and when the physical connection attempt settles, whether and
how long service discovery takes, and the absolute time at which the
stack reports the device disconnected (if ever). -/
structure ConnEnv where
  connectResult : Option BleError
  connectDur : Nat
  discoverResult : Option BleError
  discoverDur : Nat
  disconnectAt : Option Nat
deriving DecidableEq, Repr

/-- Timed events observable during one `connect` call. -/
inductive ConnEvent where
  | connectRequested
  | connectSucceeded
  | connectFailed (e : BleError)
  | discoveryRequested
  | discoverySucceeded
  | discoveryFailed (e : BleError)
  | observerRegistered
  | onDisconnectCalled (status : ConnectionStatus)
deriving DecidableEq, Repr

/-- The timed trace and the outcome of the promise returned by
`connect(device, onDisconnect)`, derived from the source line by line:
`await device.connect()` (a rejection propagates and rejects `connect`);
then `await this.discoverWithDelay(device)`, whose executor runs
`setTimeout(async () => { const result = await
device.discoverAllServicesAndCharacteristics(); resolve(result); },
1600)` — so discovery is requested `settlingDelay` after the connection
succeeded, and `resolve` is reached only when discovery succeeds: when
discovery rejects, the rejection inside the timeout callback is
unhandled and the promise returned by `discoverWithDelay` (hence by
`connect`) stays pending forever; then `device.onDisconnected(...)`
registers the disconnect observer and `connect` resolves.  The stack is
modelled per the spec interface: the observer fires exactly once, at
the stack disconnect time, provided the disconnect happens after the
observer is registered. -/
def connectRun (env : ConnEnv) : List (Nat × ConnEvent) × PromiseState Unit :=
  match env.connectResult with
  | some e => ([(0, .connectRequested), (env.connectDur, .connectFailed e)], .rejected e)
  | none =>
    let tOk := env.connectDur
    let tReq := tOk + settlingDelay
    match env.discoverResult with
    | some e =>
      ([(0, .connectRequested), (tOk, .connectSucceeded), (tReq, .discoveryRequested),
        (tReq + env.discoverDur, .discoveryFailed e)], .pending)
    | none =>
      let tDisc := tReq + env.discoverDur
      let base := [(0, .connectRequested), (tOk, .connectSucceeded),
        (tReq, .discoveryRequested), (tDisc, .discoverySucceeded),
        (tDisc, .observerRegistered)]
      match env.disconnectAt with
      | some d =>
        if tDisc ≤ d then
          (base ++ [(d, .onDisconnectCalled .DISCONNECTED)], .resolved ())
        else (base, .resolved ())
      | none => (base, .resolved ())

/-- Whether a trace event is an invocation of the onDisconnect callback. -/
def isOnDisconnectCall : ConnEvent → Bool
  | .onDisconnectCalled _ => true
  | _ => false

/-- One notification delivered to the listener of
`monitorCharacteristicForService`: a possible transport error and a
possible characteristic value (carried base64-encoded; modelled as the
raw payload bytes it encodes). -/
structure Notification where
  error : Option BleError
  value : Option (List Nat)
deriving DecidableEq, Repr

/-- Callback invocations `receiveData` makes for one notification. -/
inductive StreamOut where
  | errOut (e : BleError)
  | dataOut (m : Measurement)
deriving DecidableEq, Repr

/-- The listener body of `receiveData`:
`if (error) { onError(error); }`
`if (result?.value) { ... onData(convertBloodPressure(base64ToHex(value))); }`
Both ifs run independently and nothing unsubscribes. -/
def handleNotification (n : Notification) : List StreamOut :=
  (match n.error with
   | some e => [StreamOut.errOut e]
   | none => []) ++
  (match n.value with
   | some v => [StreamOut.dataOut (decodeFrame v)]
   | none => [])

/-- The callbacks produced over a whole stream of notifications: the
subscription is never torn down, so every notification is handled. -/
def receiveDataRun (ns : List Notification) : List StreamOut :=
  ns.flatMap handleNotification

/-- The monitor call `receiveData` performs. -/
structure MonitorCall where
  service : String
  characteristic : String
deriving DecidableEq, Repr

/-- `receiveData` of the source, viewed from its caller: it calls
`monitorCharacteristicForService(this.service, this.characteristicNotify,
listener)` — whose Subscription object (the abstract
`stackSubscription` handle the stack hands back) it discards — and has
no return statement, so the async function resolves with `undefined`
(`none`). -/
def receiveData (stackSubscription : Nat) : MonitorCall × Option Nat :=
  ({ service := service, characteristic := characteristicNotify }, none)

set_option maxRecDepth 4000 in
/-- For every byte, `hex2bin` of its two-digit hex string is the 8-bit
binary expansion, most significant bit first. -/
theorem statusBits_eq : ∀ b : Nat, b < 256 →
    hex2bin (some (byteToHex b)) =
      ⟨[bitChar (b.testBit 7), bitChar (b.testBit 6), bitChar (b.testBit 5),
        bitChar (b.testBit 4), bitChar (b.testBit 3), bitChar (b.testBit 2),
        bitChar (b.testBit 1), bitChar (b.testBit 0)]⟩ := by decide

theorem hexCharVal {d : Nat} (h : d < 16) : hexDigitVal (hexChar d) = some d := by
  interval_cases d <;> rfl

theorem goHex_cons (acc : Nat) {d : Nat} (hd : d < 16) (cs : List Char) :
    goHex acc (hexChar d :: cs) = goHex (16 * acc + d) cs := by
  simp [goHex, hexCharVal hd]

/-- Parsing the hex string of a single byte recovers the byte. -/
theorem parseIntHex_one {b : Nat} (hb : b < 256) :
    parseIntHex (byteToHex b) = some b := by
  have h1 : b / 16 < 16 := by omega
  have h2 : b % 16 < 16 := by omega
  show parseIntHex ⟨[hexChar (b / 16), hexChar (b % 16)]⟩ = some b
  simp only [parseIntHex, hexCharVal h1]
  rw [goHex_cons _ h2]
  simp only [goHex]
  exact congrArg some (by omega)

/-- Parsing the concatenation of two byte hex strings gives the value
with the first byte as the high byte. -/
theorem parseIntHex_two {a b : Nat} (ha : a < 256) (hb : b < 256) :
    parseIntHex (byteToHex a ++ byteToHex b) = some (256 * a + b) := by
  have h1 : a / 16 < 16 := by omega
  have h2 : a % 16 < 16 := by omega
  have h3 : b / 16 < 16 := by omega
  have h4 : b % 16 < 16 := by omega
  show parseIntHex
      ⟨[hexChar (a / 16), hexChar (a % 16), hexChar (b / 16), hexChar (b % 16)]⟩ =
    some (256 * a + b)
  simp only [parseIntHex, hexCharVal h1]
  rw [goHex_cons _ h2, goHex_cons _ h3, goHex_cons _ h4]
  simp only [goHex]
  exact congrArg some (by omega)

end BM77Model

namespace BM77Model

/-- Claim C1: for every 20-byte frame, decode is positional: header is
byte 0; systolic is the little-endian u16 of bytes 1-2 (low byte at
offset 1); diastolic of bytes 3-4; meanArterialPressure is byte 5; year
the little-endian u16 of bytes 7-8; month, day, hours, minutes, seconds
are bytes 9-13; pulseRate the little-endian u16 of bytes 14-15; userID
is byte 16; and byte 6 has no influence on any field of the result. -/
theorem claim1_decode_positional
    (b0 b1 b2 b3 b4 b5 b6 b7 b8 b9 b10 b11 b12 b13 b14 b15 b16 b17 b18 b19 : Nat)
    (h0 : b0 < 256) (h1 : b1 < 256) (h2 : b2 < 256) (h3 : b3 < 256) (h4 : b4 < 256)
    (h5 : b5 < 256) (h7 : b7 < 256) (h8 : b8 < 256) (h9 : b9 < 256) (h10 : b10 < 256)
    (h11 : b11 < 256) (h12 : b12 < 256) (h13 : b13 < 256) (h14 : b14 < 256)
    (h15 : b15 < 256) (h16 : b16 < 256) :
    (decodeFrame [b0, b1, b2, b3, b4, b5, b6, b7, b8, b9, b10, b11, b12, b13, b14, b15, b16, b17, b18, b19]).header = some b0 ∧
    (decodeFrame [b0, b1, b2, b3, b4, b5, b6, b7, b8, b9, b10, b11, b12, b13, b14, b15, b16, b17, b18, b19]).systolic = some (b1 + 256 * b2) ∧
    (decodeFrame [b0, b1, b2, b3, b4, b5, b6, b7, b8, b9, b10, b11, b12, b13, b14, b15, b16, b17, b18, b19]).diastolic = some (b3 + 256 * b4) ∧
    (decodeFrame [b0, b1, b2, b3, b4, b5, b6, b7, b8, b9, b10, b11, b12, b13, b14, b15, b16, b17, b18, b19]).meanArterialPressure = some b5 ∧
    (decodeFrame [b0, b1, b2, b3, b4, b5, b6, b7, b8, b9, b10, b11, b12, b13, b14, b15, b16, b17, b18, b19]).year = some (b7 + 256 * b8) ∧
    (decodeFrame [b0, b1, b2, b3, b4, b5, b6, b7, b8, b9, b10, b11, b12, b13, b14, b15, b16, b17, b18, b19]).month = some b9 ∧
    (decodeFrame [b0, b1, b2, b3, b4, b5, b6, b7, b8, b9, b10, b11, b12, b13, b14, b15, b16, b17, b18, b19]).day = some b10 ∧
    (decodeFrame [b0, b1, b2, b3, b4, b5, b6, b7, b8, b9, b10, b11, b12, b13, b14, b15, b16, b17, b18, b19]).hours = some b11 ∧
    (decodeFrame [b0, b1, b2, b3, b4, b5, b6, b7, b8, b9, b10, b11, b12, b13, b14, b15, b16, b17, b18, b19]).minutes = some b12 ∧
    (decodeFrame [b0, b1, b2, b3, b4, b5, b6, b7, b8, b9, b10, b11, b12, b13, b14, b15, b16, b17, b18, b19]).seconds = some b13 ∧
    (decodeFrame [b0, b1, b2, b3, b4, b5, b6, b7, b8, b9, b10, b11, b12, b13, b14, b15, b16, b17, b18, b19]).pulseRate = some (b14 + 256 * b15) ∧
    (decodeFrame [b0, b1, b2, b3, b4, b5, b6, b7, b8, b9, b10, b11, b12, b13, b14, b15, b16, b17, b18, b19]).userID = some b16 ∧
    (∀ c6 : Nat,
      decodeFrame [b0, b1, b2, b3, b4, b5, c6, b7, b8, b9, b10, b11, b12, b13, b14, b15, b16, b17, b18, b19] =
      decodeFrame [b0, b1, b2, b3, b4, b5, b6, b7, b8, b9, b10, b11, b12, b13, b14, b15, b16, b17, b18, b19]) := by
  refine ⟨?_, ?_, ?_, ?_, ?_, ?_, ?_, ?_, ?_, ?_, ?_, ?_, ?_⟩
  · show parseIntHex (byteToHex b0) = some b0
    exact parseIntHex_one h0
  · show parseIntHex (byteToHex b2 ++ byteToHex b1) = some (b1 + 256 * b2)
    rw [parseIntHex_two h2 h1]
    exact congrArg some (by omega)
  · show parseIntHex (byteToHex b4 ++ byteToHex b3) = some (b3 + 256 * b4)
    rw [parseIntHex_two h4 h3]
    exact congrArg some (by omega)
  · show parseIntHex (byteToHex b5) = some b5
    exact parseIntHex_one h5
  · show parseIntHex (byteToHex b8 ++ byteToHex b7) = some (b7 + 256 * b8)
    rw [parseIntHex_two h8 h7]
    exact congrArg some (by omega)
  · show parseIntHex (byteToHex b9) = some b9
    exact parseIntHex_one h9
  · show parseIntHex (byteToHex b10) = some b10
    exact parseIntHex_one h10
  · show parseIntHex (byteToHex b11) = some b11
    exact parseIntHex_one h11
  · show parseIntHex (byteToHex b12) = some b12
    exact parseIntHex_one h12
  · show parseIntHex (byteToHex b13) = some b13
    exact parseIntHex_one h13
  · show parseIntHex (byteToHex b15 ++ byteToHex b14) = some (b14 + 256 * b15)
    rw [parseIntHex_two h15 h14]
    exact congrArg some (by omega)
  · show parseIntHex (byteToHex b16) = some b16
    exact parseIntHex_one h16
  · intro c6
    rfl

/-- Witness for C1 at the concrete frame of the specification. -/
theorem claim1_decode_positional_witness :
    (decodeFrame [0, 120, 0, 80, 0, 0, 0, 231, 7, 6, 15, 10, 30, 0, 72, 0, 0, 0, 0, 0]).systolic = some (120 + 256 * 0) :=
  (claim1_decode_positional 0 120 0 80 0 0 0 231 7 6 15 10 30 0 72 0 0 0 0 0
    (by decide) (by decide) (by decide) (by decide) (by decide) (by decide)
    (by decide) (by decide) (by decide) (by decide) (by decide) (by decide)
    (by decide) (by decide) (by decide) (by decide)).2.1

/-- Claim C2: the status byte at offset 17 is expanded to 8 bits, bit 0
being the most significant, and the six status fields follow the claimed
bit table: bodyMovement from bit 0, cuffFit from bit 1, irregularPulse
from bit 2, pulseRateRange from the 2-bit code at bits 3-4,
measurementPosition from bit 5, HSD from the 2-bit code at bits 6-7,
with both reserved 11 codes reading Undefined. -/
theorem claim2_status_bits
    (b0 b1 b2 b3 b4 b5 b6 b7 b8 b9 b10 b11 b12 b13 b14 b15 b16 b17 b18 b19 : Nat)
    (h17 : b17 < 256) :
    (decodeFrame [b0, b1, b2, b3, b4, b5, b6, b7, b8, b9, b10, b11, b12, b13, b14, b15, b16, b17, b18, b19]).bodyMovement =
      (if b17.testBit 7 then "Body movement" else "No body movement") ∧
    (decodeFrame [b0, b1, b2, b3, b4, b5, b6, b7, b8, b9, b10, b11, b12, b13, b14, b15, b16, b17, b18, b19]).cuffFit =
      (if b17.testBit 6 then "Cuff is too loose" else "Cuff fits properly") ∧
    (decodeFrame [b0, b1, b2, b3, b4, b5, b6, b7, b8, b9, b10, b11, b12, b13, b14, b15, b16, b17, b18, b19]).irregularPulse =
      (if b17.testBit 5 then "Irregular pulse" else "No irregular pulse") ∧
    (decodeFrame [b0, b1, b2, b3, b4, b5, b6, b7, b8, b9, b10, b11, b12, b13, b14, b15, b16, b17, b18, b19]).pulseRateRange =
      (if b17.testBit 4 then (if b17.testBit 3 then "Undefined" else "Below lower limit")
       else (if b17.testBit 3 then "Exceeds upper limit" else "In range")) ∧
    (decodeFrame [b0, b1, b2, b3, b4, b5, b6, b7, b8, b9, b10, b11, b12, b13, b14, b15, b16, b17, b18, b19]).measurementPosition =
      (if b17.testBit 2 then "Improper position" else "Proper position") ∧
    (decodeFrame [b0, b1, b2, b3, b4, b5, b6, b7, b8, b9, b10, b11, b12, b13, b14, b15, b16, b17, b18, b19]).HSD =
      (if b17.testBit 1 then (if b17.testBit 0 then "Undefined" else "Unable to judge")
       else (if b17.testBit 0 then "HSD detected" else "HSD not detected")) := by
  refine ⟨?_, ?_, ?_, ?_, ?_, ?_⟩
  · have e : (decodeFrame [b0, b1, b2, b3, b4, b5, b6, b7, b8, b9, b10, b11, b12, b13, b14, b15, b16, b17, b18, b19]).bodyMovement =
        (if charAt (hex2bin (some (byteToHex b17))) 0 = some '0' then "No body movement" else "Body movement") := rfl
    rw [e, statusBits_eq b17 h17]
    cases hb : b17.testBit 7 <;> rfl
  · have e : (decodeFrame [b0, b1, b2, b3, b4, b5, b6, b7, b8, b9, b10, b11, b12, b13, b14, b15, b16, b17, b18, b19]).cuffFit =
        (if charAt (hex2bin (some (byteToHex b17))) 1 = some '0' then "Cuff fits properly" else "Cuff is too loose") := rfl
    rw [e, statusBits_eq b17 h17]
    cases hb : b17.testBit 6 <;> rfl
  · have e : (decodeFrame [b0, b1, b2, b3, b4, b5, b6, b7, b8, b9, b10, b11, b12, b13, b14, b15, b16, b17, b18, b19]).irregularPulse =
        (if charAt (hex2bin (some (byteToHex b17))) 2 = some '0' then "No irregular pulse" else "Irregular pulse") := rfl
    rw [e, statusBits_eq b17 h17]
    cases hb : b17.testBit 5 <;> rfl
  · have e : (decodeFrame [b0, b1, b2, b3, b4, b5, b6, b7, b8, b9, b10, b11, b12, b13, b14, b15, b16, b17, b18, b19]).pulseRateRange =
        pulseRateConvert (jsCharPair (charAt (hex2bin (some (byteToHex b17))) 3) (charAt (hex2bin (some (byteToHex b17))) 4)) := rfl
    rw [e, statusBits_eq b17 h17]
    cases hb4 : b17.testBit 4 <;> cases hb3 : b17.testBit 3 <;> rfl
  · have e : (decodeFrame [b0, b1, b2, b3, b4, b5, b6, b7, b8, b9, b10, b11, b12, b13, b14, b15, b16, b17, b18, b19]).measurementPosition =
        (if charAt (hex2bin (some (byteToHex b17))) 5 = some '0' then "Proper position" else "Improper position") := rfl
    rw [e, statusBits_eq b17 h17]
    cases hb : b17.testBit 2 <;> rfl
  · have e : (decodeFrame [b0, b1, b2, b3, b4, b5, b6, b7, b8, b9, b10, b11, b12, b13, b14, b15, b16, b17, b18, b19]).HSD =
        HSDConvert (jsCharPair (charAt (hex2bin (some (byteToHex b17))) 6) (charAt (hex2bin (some (byteToHex b17))) 7)) := rfl
    rw [e, statusBits_eq b17 h17]
    cases hb1 : b17.testBit 1 <;> cases hb0 : b17.testBit 0 <;> rfl

/-- Witness for C2 at status byte 0xA5 = 0b10100101. -/
theorem claim2_status_bits_witness :
    (decodeFrame [0, 120, 0, 80, 0, 0, 0, 231, 7, 6, 15, 10, 30, 0, 72, 0, 0, 165, 0, 0]).bodyMovement =
      (if (165 : Nat).testBit 7 then "Body movement" else "No body movement") :=
  (claim2_status_bits 0 120 0 80 0 0 0 231 7 6 15 10 30 0 72 0 0 165 0 0 (by decide)).1

/-- Claim C3: decoding the literal frame
00 78 00 50 00 00 00 E7 07 06 0F 0A 1E 00 48 00 00 00 00 00 yields
systolic 120, diastolic 80, year 2023, month 6, day 15, hours 10,
minutes 30, seconds 0, pulseRate 72, userID 0, and every status field at
its no-issue value. -/
theorem claim3_literal_frame :
    (decodeFrame [0x00, 0x78, 0x00, 0x50, 0x00, 0x00, 0x00, 0xE7, 0x07, 0x06, 0x0F, 0x0A, 0x1E, 0x00, 0x48, 0x00, 0x00, 0x00, 0x00, 0x00]).systolic = some 120 ∧
    (decodeFrame [0x00, 0x78, 0x00, 0x50, 0x00, 0x00, 0x00, 0xE7, 0x07, 0x06, 0x0F, 0x0A, 0x1E, 0x00, 0x48, 0x00, 0x00, 0x00, 0x00, 0x00]).diastolic = some 80 ∧
    (decodeFrame [0x00, 0x78, 0x00, 0x50, 0x00, 0x00, 0x00, 0xE7, 0x07, 0x06, 0x0F, 0x0A, 0x1E, 0x00, 0x48, 0x00, 0x00, 0x00, 0x00, 0x00]).year = some 2023 ∧
    (decodeFrame [0x00, 0x78, 0x00, 0x50, 0x00, 0x00, 0x00, 0xE7, 0x07, 0x06, 0x0F, 0x0A, 0x1E, 0x00, 0x48, 0x00, 0x00, 0x00, 0x00, 0x00]).month = some 6 ∧
    (decodeFrame [0x00, 0x78, 0x00, 0x50, 0x00, 0x00, 0x00, 0xE7, 0x07, 0x06, 0x0F, 0x0A, 0x1E, 0x00, 0x48, 0x00, 0x00, 0x00, 0x00, 0x00]).day = some 15 ∧
    (decodeFrame [0x00, 0x78, 0x00, 0x50, 0x00, 0x00, 0x00, 0xE7, 0x07, 0x06, 0x0F, 0x0A, 0x1E, 0x00, 0x48, 0x00, 0x00, 0x00, 0x00, 0x00]).hours = some 10 ∧
    (decodeFrame [0x00, 0x78, 0x00, 0x50, 0x00, 0x00, 0x00, 0xE7, 0x07, 0x06, 0x0F, 0x0A, 0x1E, 0x00, 0x48, 0x00, 0x00, 0x00, 0x00, 0x00]).minutes = some 30 ∧
    (decodeFrame [0x00, 0x78, 0x00, 0x50, 0x00, 0x00, 0x00, 0xE7, 0x07, 0x06, 0x0F, 0x0A, 0x1E, 0x00, 0x48, 0x00, 0x00, 0x00, 0x00, 0x00]).seconds = some 0 ∧
    (decodeFrame [0x00, 0x78, 0x00, 0x50, 0x00, 0x00, 0x00, 0xE7, 0x07, 0x06, 0x0F, 0x0A, 0x1E, 0x00, 0x48, 0x00, 0x00, 0x00, 0x00, 0x00]).pulseRate = some 72 ∧
    (decodeFrame [0x00, 0x78, 0x00, 0x50, 0x00, 0x00, 0x00, 0xE7, 0x07, 0x06, 0x0F, 0x0A, 0x1E, 0x00, 0x48, 0x00, 0x00, 0x00, 0x00, 0x00]).userID = some 0 ∧
    (decodeFrame [0x00, 0x78, 0x00, 0x50, 0x00, 0x00, 0x00, 0xE7, 0x07, 0x06, 0x0F, 0x0A, 0x1E, 0x00, 0x48, 0x00, 0x00, 0x00, 0x00, 0x00]).bodyMovement = "No body movement" ∧
    (decodeFrame [0x00, 0x78, 0x00, 0x50, 0x00, 0x00, 0x00, 0xE7, 0x07, 0x06, 0x0F, 0x0A, 0x1E, 0x00, 0x48, 0x00, 0x00, 0x00, 0x00, 0x00]).cuffFit = "Cuff fits properly" ∧
    (decodeFrame [0x00, 0x78, 0x00, 0x50, 0x00, 0x00, 0x00, 0xE7, 0x07, 0x06, 0x0F, 0x0A, 0x1E, 0x00, 0x48, 0x00, 0x00, 0x00, 0x00, 0x00]).irregularPulse = "No irregular pulse" ∧
    (decodeFrame [0x00, 0x78, 0x00, 0x50, 0x00, 0x00, 0x00, 0xE7, 0x07, 0x06, 0x0F, 0x0A, 0x1E, 0x00, 0x48, 0x00, 0x00, 0x00, 0x00, 0x00]).pulseRateRange = "In range" ∧
    (decodeFrame [0x00, 0x78, 0x00, 0x50, 0x00, 0x00, 0x00, 0xE7, 0x07, 0x06, 0x0F, 0x0A, 0x1E, 0x00, 0x48, 0x00, 0x00, 0x00, 0x00, 0x00]).measurementPosition = "Proper position" ∧
    (decodeFrame [0x00, 0x78, 0x00, 0x50, 0x00, 0x00, 0x00, 0xE7, 0x07, 0x06, 0x0F, 0x0A, 0x1E, 0x00, 0x48, 0x00, 0x00, 0x00, 0x00, 0x00]).HSD = "HSD not detected" := by
  decide

theorem foldl_scanStep_inactive (events : List ScanEvent) (s : ScanState)
    (h : s.active = false) : events.foldl scanStep s = s := by
  induction events with
  | nil => rfl
  | cons ev rest ih => simp [List.foldl, scanStep, h]; exact ih

theorem foldl_scanStep_no_match (events : List ScanEvent) (s : ScanState)
    (hres : ∀ i, s.promise ≠ PromiseState.resolved i)
    (h : ∀ ev ∈ events, isMatchingAdv ev = false) :
    ∀ i, (events.foldl scanStep s).promise ≠ PromiseState.resolved i := by
  induction events generalizing s with
  | nil => exact hres
  | cons ev rest ih =>
    have hev : isMatchingAdv ev = false := h ev (List.mem_cons_self ev rest)
    have hrest : ∀ ev2 ∈ rest, isMatchingAdv ev2 = false :=
      fun ev2 h2 => h ev2 (List.mem_cons_of_mem ev h2)
    refine ih (scanStep s ev) ?_ hrest
    cases ev with
    | stackErr e =>
      by_cases ha : s.active
      · intro i
        simp [scanStep, ha, scanListener, scanEventArgs]
        cases hp : s.promise with
        | pending => simp [settleReject]
        | resolved a => simp [settleReject]; exact fun hcon => hres a (by rw [hp, hcon])
        | rejected x => simp [settleReject]
      · simp [scanStep, ha]; exact hres
    | adv j n =>
      have hn : ¬ (n = some deviceName) := by
        simpa [isMatchingAdv] using hev
      by_cases ha : s.active
      · simp [scanStep, ha, scanListener, scanEventArgs, hn]; exact hres
      · simp [scanStep, ha]; exact hres

theorem foldl_scanStep_clean (pre : List ScanEvent)
    (h1 : ∀ ev ∈ pre, isMatchingAdv ev = false)
    (h2 : ∀ ev ∈ pre, isScanErr ev = false) :
    pre.foldl scanStep { promise := .pending, active := true } =
      ({ promise := .pending, active := true } : ScanState) := by
  induction pre with
  | nil => rfl
  | cons ev rest ih =>
    have hev1 : isMatchingAdv ev = false := h1 ev (List.mem_cons_self ev rest)
    have hev2 : isScanErr ev = false := h2 ev (List.mem_cons_self ev rest)
    have hstep : scanStep { promise := .pending, active := true } ev =
        ({ promise := .pending, active := true } : ScanState) := by
      cases ev with
      | stackErr e => simp [isScanErr] at hev2
      | adv j n =>
        have hn : ¬ (n = some deviceName) := by simpa [isMatchingAdv] using hev1
        simp [scanStep, scanListener, scanEventArgs, hn]
    rw [List.foldl_cons, hstep]
    exact ih (fun e he => h1 e (List.mem_cons_of_mem ev he))
      (fun e he => h2 e (List.mem_cons_of_mem ev he))

/-- Claim C5: startScan resolves only on an advertisement whose name is
exactly the string BM77 (case-sensitive): over any event stream without
such an advertisement (names such as BM770, bm77, or no name) the
returned promise is never resolved; and on the first exact match —
after any prefix of non-matching, non-error events — the scan is
stopped and the promise resolves with that device handle, later events
being ignored. -/
theorem claim5_scan_exact_name (events pre rest : List ScanEvent) (id : Nat)
    (hNoMatch : ∀ ev ∈ events, isMatchingAdv ev = false)
    (hPreNoMatch : ∀ ev ∈ pre, isMatchingAdv ev = false)
    (hPreNoErr : ∀ ev ∈ pre, isScanErr ev = false) :
    (∀ i, (startScanRun events).promise ≠ PromiseState.resolved i) ∧
    startScanRun (pre ++ ScanEvent.adv id (some "BM77") :: rest) =
      { promise := PromiseState.resolved id, active := false } := by
  constructor
  · exact foldl_scanStep_no_match events _ (by simp) hNoMatch
  · show (pre ++ ScanEvent.adv id (some "BM77") :: rest).foldl scanStep _ = _
    rw [List.foldl_append, foldl_scanStep_clean pre hPreNoMatch hPreNoErr,
      List.foldl_cons]
    have hstep : scanStep { promise := .pending, active := true }
        (ScanEvent.adv id (some "BM77")) =
        ({ promise := PromiseState.resolved id, active := false } : ScanState) := by
      simp [scanStep, scanListener, scanEventArgs, deviceName, settleResolve]
    rw [hstep]
    exact foldl_scanStep_inactive rest _ rfl

/-- Witness for C5: advertisements named BM770 and bm77 and a nameless
advertisement do not resolve the scan; the first advertisement named
exactly BM77 (device 7) does, and the scan is stopped there. -/
theorem claim5_scan_exact_name_witness :
    startScanRun [ScanEvent.adv 1 (some "BM770"), ScanEvent.adv 2 (some "bm77"),
      ScanEvent.adv 3 none, ScanEvent.adv 7 (some "BM77"),
      ScanEvent.adv 9 (some "BM77")] =
      { promise := PromiseState.resolved 7, active := false } :=
  (claim5_scan_exact_name []
    [ScanEvent.adv 1 (some "BM770"), ScanEvent.adv 2 (some "bm77"), ScanEvent.adv 3 none]
    [ScanEvent.adv 9 (some "BM77")] 7 (by decide) (by decide) (by decide)).2

/-- Claim C6: within one connect call the discovery request is only
observed at least the settling delay (1600 ms) after the physical
connection succeeded. -/
theorem claim6_discovery_after_delay (env : ConnEnv) (t : Nat)
    (h : (t, ConnEvent.discoveryRequested) ∈ (connectRun env).1) :
    ∃ tc, (tc, ConnEvent.connectSucceeded) ∈ (connectRun env).1 ∧
      tc + settlingDelay ≤ t := by
  rcases env with ⟨cr, cd, dr, dd, da⟩
  cases cr with
  | some e => simp [connectRun] at h
  | none =>
    cases dr with
    | some e =>
      simp [connectRun] at h ⊢
      omega
    | none =>
      cases da with
      | none =>
        simp [connectRun] at h ⊢
        omega
      | some d =>
        by_cases hle : cd + settlingDelay + dd ≤ d
        · simp [connectRun, hle] at h ⊢
          omega
        · simp [connectRun, hle] at h ⊢
          omega

/-- Witness for C6 at a stack that connects after 5 ms and discovers in
3 ms: discovery is requested at 1605 = 5 + 1600. -/
theorem claim6_discovery_after_delay_witness :
    ∃ tc, (tc, ConnEvent.connectSucceeded) ∈
        (connectRun ⟨none, 5, none, 3, none⟩).1 ∧
      tc + settlingDelay ≤ 1605 :=
  claim6_discovery_after_delay ⟨none, 5, none, 3, none⟩ 1605 (by decide)

/-- Claim C7: for a session that completes discovery and whose device
later disconnects, the onDisconnect callback is invoked exactly once,
with status DISCONNECTED, and never before discovery completed (the
observer is only registered at discovery completion, so every
invocation is at or after that time). -/
theorem claim7_disconnect_once (env : ConnEnv) (d : Nat)
    (hc : env.connectResult = none) (hd : env.discoverResult = none)
    (hda : env.disconnectAt = some d)
    (hafter : env.connectDur + settlingDelay + env.discoverDur ≤ d) :
    ((connectRun env).1.countP (fun p => isOnDisconnectCall p.2)) = 1 ∧
    (d, ConnEvent.onDisconnectCalled ConnectionStatus.DISCONNECTED) ∈ (connectRun env).1 ∧
    (∀ t s, (t, ConnEvent.onDisconnectCalled s) ∈ (connectRun env).1 →
      s = ConnectionStatus.DISCONNECTED ∧
      env.connectDur + settlingDelay + env.discoverDur ≤ t) := by
  rcases env with ⟨cr, cd, dr, dd, da⟩
  simp only at hc hd hda hafter ⊢
  subst hc; subst hd; subst hda
  have hle : cd + settlingDelay + dd ≤ d := hafter
  refine ⟨?_, ?_, ?_⟩
  · simp [connectRun, hle, List.countP, List.countP.go, isOnDisconnectCall]
  · simp [connectRun, hle]
  · intro t s hmem
    simp [connectRun, hle] at hmem
    rcases hmem with ⟨ht, hs⟩
    constructor
    · exact hs.symm ▸ rfl
    · omega

/-- Witness for C7: connect in 5 ms, discover in 3 ms, disconnect at
2000 ms: exactly one onDisconnect invocation, at 2000, DISCONNECTED. -/
theorem claim7_disconnect_once_witness :
    ((connectRun ⟨none, 5, none, 3, some 2000⟩).1.countP
      (fun p => isOnDisconnectCall p.2)) = 1 ∧
    (2000, ConnEvent.onDisconnectCalled ConnectionStatus.DISCONNECTED) ∈
      (connectRun ⟨none, 5, none, 3, some 2000⟩).1 :=
  ⟨(claim7_disconnect_once ⟨none, 5, none, 3, some 2000⟩ 2000 rfl rfl rfl (by decide)).1,
   (claim7_disconnect_once ⟨none, 5, none, 3, some 2000⟩ 2000 rfl rfl rfl (by decide)).2.1⟩

/-- Claim C4 (evaluating the code where the claim says connect must
reject): when the physical connection succeeds and service discovery
then fails, the promise returned by connect stays pending forever — it
is never rejected, so no ConnectionError reaches the caller; discovery
is requested exactly once (no retry) and the disconnect observer is
never registered. -/
theorem claim4_discovery_failure_not_surfaced (env : ConnEnv) (e : BleError)
    (hc : env.connectResult = none) (hd : env.discoverResult = some e) :
    (connectRun env).2 = PromiseState.pending ∧
    (∀ x, (connectRun env).2 ≠ PromiseState.rejected x) ∧
    ((connectRun env).1.countP (fun p => p.2 = ConnEvent.discoveryRequested)) = 1 ∧
    (∀ t s, (t, ConnEvent.onDisconnectCalled s) ∉ (connectRun env).1) := by
  rcases env with ⟨cr, cd, dr, dd, da⟩
  simp only at hc hd ⊢
  subst hc; subst hd
  refine ⟨rfl, by simp [connectRun], ?_, ?_⟩
  · simp [connectRun, List.countP, List.countP.go]
  · intro t s
    simp [connectRun]

/-- Witness for C4: connect succeeds after 5 ms, discovery rejects with
error 7 — the connect promise is still pending and discovery was
requested exactly once. -/
theorem claim4_discovery_failure_not_surfaced_witness :
    (connectRun ⟨none, 5, some ⟨7⟩, 3, none⟩).2 = PromiseState.pending ∧
    ((connectRun ⟨none, 5, some ⟨7⟩, 3, none⟩).1.countP
      (fun p => p.2 = ConnEvent.discoveryRequested)) = 1 :=
  ⟨(claim4_discovery_failure_not_surfaced ⟨none, 5, some ⟨7⟩, 3, none⟩ ⟨7⟩ rfl rfl).1,
   (claim4_discovery_failure_not_surfaced ⟨none, 5, some ⟨7⟩, 3, none⟩ ⟨7⟩ rfl rfl).2.2.1⟩

/-- Claim C8: for every notification in a stream, a reported transport
error invokes onError and a present value is decoded and dispatched to
onData; the two branches are independent, and an error never terminates
the subscription: the outputs of any stream decompose around any single
notification, so notifications after an error are still decoded and
dispatched. -/
theorem claim8_stream_branches (pre : List Notification) (n : Notification)
    (post : List Notification) :
    receiveDataRun (pre ++ n :: post) =
      receiveDataRun pre ++ handleNotification n ++ receiveDataRun post ∧
    (∀ e, n.error = some e → StreamOut.errOut e ∈ handleNotification n) ∧
    (∀ frame, n.value = some frame →
      StreamOut.dataOut (decodeFrame frame) ∈ handleNotification n) := by
  refine ⟨?_, ?_, ?_⟩
  · simp [receiveDataRun, List.append_assoc]
  · intro e he
    simp [handleNotification, he]
  · intro frame hf
    simp [handleNotification, hf]

/-- Witness for C8: a notification carrying both a transport error and
a value triggers both callbacks, and the stream around it (an error
before, a data notification after) decomposes notification by
notification. -/
theorem claim8_stream_branches_witness :
    StreamOut.errOut ⟨2⟩ ∈ handleNotification ⟨some ⟨2⟩, some []⟩ ∧
    StreamOut.dataOut (decodeFrame []) ∈ handleNotification ⟨some ⟨2⟩, some []⟩ ∧
    receiveDataRun ([⟨some ⟨1⟩, none⟩] ++ ⟨some ⟨2⟩, some []⟩ :: [⟨none, some []⟩]) =
      receiveDataRun [⟨some ⟨1⟩, none⟩] ++ handleNotification ⟨some ⟨2⟩, some []⟩ ++
        receiveDataRun [⟨none, some []⟩] :=
  ⟨(claim8_stream_branches [⟨some ⟨1⟩, none⟩] ⟨some ⟨2⟩, some []⟩ [⟨none, some []⟩]).2.1 ⟨2⟩ rfl,
   (claim8_stream_branches [⟨some ⟨1⟩, none⟩] ⟨some ⟨2⟩, some []⟩ [⟨none, some []⟩]).2.2 [] rfl,
   (claim8_stream_branches [⟨some ⟨1⟩, none⟩] ⟨some ⟨2⟩, some []⟩ [⟨none, some []⟩]).1⟩

/-- Claim C9: the decoder is total over inputs of any length — on every
byte sequence it produces a Measurement (each status field is always
one of its enumerated strings, shown here for bodyMovement and
pulseRateRange), and on missing bytes the numeric fields are NaN
(`none`) rather than an error: the empty sequence yields NaN in every
numeric field, and a 2-byte input parses the header but yields NaN for
every field drawn from the missing bytes. -/
theorem claim9_decoder_total :
    (∀ frame : List Nat,
      (decodeFrame frame).bodyMovement = "No body movement" ∨
      (decodeFrame frame).bodyMovement = "Body movement") ∧
    (∀ frame : List Nat,
      (decodeFrame frame).pulseRateRange = "In range" ∨
      (decodeFrame frame).pulseRateRange = "Exceeds upper limit" ∨
      (decodeFrame frame).pulseRateRange = "Below lower limit" ∨
      (decodeFrame frame).pulseRateRange = "Undefined") ∧
    decodeFrame [] =
      { header := none, systolic := none, diastolic := none,
        meanArterialPressure := none, year := none, month := none, day := none,
        hours := none, minutes := none, seconds := none, pulseRate := none,
        userID := none, bodyMovement := "No body movement",
        cuffFit := "Cuff fits properly", irregularPulse := "No irregular pulse",
        pulseRateRange := "In range", measurementPosition := "Improper position",
        HSD := "Undefined" } ∧
    (decodeFrame [0, 120]).header = some 0 ∧
    (decodeFrame [0, 120]).systolic = none ∧
    (decodeFrame [0, 120]).pulseRate = none := by
  refine ⟨?_, ?_, by decide, by decide, by decide, by decide⟩
  · intro frame
    have e : (decodeFrame frame).bodyMovement =
        (if charAt (hex2bin ((base64ToHex frame).get? 17)) 0 = some '0'
         then "No body movement" else "Body movement") := rfl
    rw [e]
    split
    · exact Or.inl rfl
    · exact Or.inr rfl
  · intro frame
    have e : (decodeFrame frame).pulseRateRange =
        pulseRateConvert
          (jsCharPair (charAt (hex2bin ((base64ToHex frame).get? 17)) 3)
            (charAt (hex2bin ((base64ToHex frame).get? 17)) 4)) := rfl
    rw [e]
    unfold pulseRateConvert
    split_ifs <;> simp

/-- C10 counterexample: receiveData hands no subscription handle back to
the caller — whatever subscription object the stack returns (here 42),
the value the caller receives is undefined (`none`), not a handle. -/
theorem claim10_counterexample : (receiveData 42).2 = none := rfl

/-- Claim C10 as amended: receiveData opens the notification
subscription against the fixed Blood Pressure service and measurement
characteristic UUIDs, but returns no subscription handle — the
Subscription the stack returns is discarded and the caller receives
undefined. -/
theorem claim10_no_handle (h : Nat) :
    receiveData h =
      (({ service := "00001810-0000-1000-8000-00805f9b34fb",
          characteristic := "00002a35-0000-1000-8000-00805f9b34fb" } : MonitorCall),
       (none : Option Nat)) := rfl

end BM77Model

